import Mathlib

/-!
Verification of the VLAN configuration compiler in `src/vlan-transform.ts`
(`xikestor-sks3200-tools`).

The TypeScript source is shallowly embedded below.  Records (plain
JavaScript objects) are modelled as association lists, and `Object.entries`
is modelled by `jsEntriesNat` / `jsEntriesStr`: ECMAScript enumerates own
string keys that are canonical array indices (canonical decimal numerals
below `2 ^ 32 - 1`) first, in ascending numeric order, and all remaining
keys in insertion order.  The `vlans` record of the config is keyed by
coerced numbers (`z.record(z.coerce.number(), ...)`), so its iteration
order is ascending VLAN id, independent of the YAML insertion order.

Strings use Lean `String`; `.length` of a JavaScript string (UTF-16 code
units) is `jsLength`, and the byte length of the UTF-8 encoding is
`byteLength`.  `toLowerCase` is modelled on the ASCII range (the alphabet
of config names and filters) by `jsToLower`, which lowercases each scalar
value with `Char.toLower`.
-/

/-- Membership status a template can assign to a VLAN id (the zod enum
`["tagged", "pvid"]`). -/
inductive VlanStatus where
  | tagged
  | pvid
deriving DecidableEq, Repr

/-- Three-state per-port membership as reported by `transformVlans`
(`"tagged" | "pvid" | "not-member"`). -/
inductive PortStatus where
  | tagged
  | pvid
  | notMember
deriving DecidableEq, Repr

/-- The `auth` record of a switch (`type` is the constant `"xike"` and is
omitted). -/
structure AuthConfig where
  user : String
  pass : String
  resp : String
deriving DecidableEq, Repr

/-- One entry of a switch's ordered `ports` array. -/
structure PortEntry where
  name : String
  template : String
deriving DecidableEq, Repr

/-- The value of one entry of the `switches` record. -/
structure SwitchData where
  name : String
  address : String
  auth : AuthConfig
  ports : List PortEntry
deriving DecidableEq, Repr

/-- A template: a record from VLAN id to status. -/
abbrev Template := List (Nat × VlanStatus)

/-- The validated configuration (`VlanConfigSchema`).  Association lists
keep the records' insertion order; iteration goes through `jsEntriesNat` /
`jsEntriesStr`. -/
structure VlanConfig where
  vlans : List (Nat × String)
  templates : List (String × Template)
  switches : List (String × SwitchData)
deriving DecidableEq, Repr

/-- The `HttpRequest` interface of the source. -/
structure HttpRequest where
  method : String
  url : String
  headers : List (String × String)
  body : String
deriving DecidableEq, Repr

/-- The `SwitchHttpRequests` interface of the source. -/
structure SwitchHttpRequests where
  switch : String
  address : String
  requests : List HttpRequest
deriving DecidableEq, Repr

/-! ## JavaScript primitives used by the source -/

/-- Decimal digit character. -/
def digitCh (d : Nat) : Char :=
  if d = 0 then '0' else if d = 1 then '1' else if d = 2 then '2'
  else if d = 3 then '3' else if d = 4 then '4' else if d = 5 then '5'
  else if d = 6 then '6' else if d = 7 then '7' else if d = 8 then '8'
  else '9'

/-- Decimal digits of `n` (fuel-driven; `natToStr` supplies enough fuel). -/
def natDigitsAux : Nat → Nat → List Char
  | 0, _ => []
  | fuel + 1, n =>
    if n < 10 then [digitCh n]
    else natDigitsAux fuel (n / 10) ++ [digitCh (n % 10)]

/-- Canonical decimal rendering of a natural number, as JavaScript renders
an integer-valued number into a template literal or via `toString()`. -/
def natToStr (n : Nat) : String :=
  String.mk (natDigitsAux (n + 1) n)

/-- JavaScript rendering of an integer-valued number (`Int` has no negative
zero, matching `(-0).toString() = "0"`). -/
def intToStr (n : Int) : String :=
  if n < 0 then "-" ++ natToStr n.natAbs else natToStr n.natAbs

/-- `toLowerCase()`, modelled on the ASCII range: each scalar value is
lowercased with `Char.toLower`. -/
def jsToLower (s : String) : String :=
  String.mk (s.data.map Char.toLower)

/-- Value of a list of decimal digit characters. -/
def digitsToNat (cs : List Char) : Nat :=
  cs.foldl (fun a c => a * 10 + (c.toNat - 48)) 0

/-- `Array.prototype.join(sep)`. -/
def joinSep (sep : String) : List String → String
  | [] => ""
  | [x] => x
  | x :: xs => x ++ sep ++ joinSep sep xs

/-- ECMAScript whitespace skipped by `parseInt`, modelled on the ASCII
range (plus NBSP). -/
def jsWhitespace (c : Char) : Bool :=
  c = ' ' || c = '\t' || c = '\n' || c = '\r' || c = '\x0b' || c = '\x0c' || c = '\xa0'

/-- Value of a hexadecimal digit character, or `none`. -/
def hexVal (c : Char) : Option Nat :=
  if c.isDigit then some (c.toNat - 48)
  else if 'a' ≤ c ∧ c ≤ 'f' then some (c.toNat - 87)
  else if 'A' ≤ c ∧ c ≤ 'F' then some (c.toNat - 55)
  else none

/-- Longest hexadecimal-digit prefix, as a value. -/
def takeHex : List Char → Option Nat → Option Nat
  | [], acc => acc
  | c :: cs, acc =>
    match hexVal c with
    | some d => takeHex cs (some ((acc.getD 0) * 16 + d))
    | none => acc

/-- `parseInt(s)` with no radix argument: skip whitespace, optional sign,
`0x`/`0X` prefix selects hexadecimal, otherwise the longest decimal digit
prefix; `none` is `NaN`. -/
def jsParseInt (s : String) : Option Int :=
  let cs := s.data.dropWhile jsWhitespace
  let signed : Int × List Char :=
    match cs with
    | '-' :: rest => (-1, rest)
    | '+' :: rest => (1, rest)
    | _ => (1, cs)
  match signed.2 with
  | '0' :: 'x' :: rest => (takeHex rest none).map (fun n => signed.1 * n)
  | '0' :: 'X' :: rest => (takeHex rest none).map (fun n => signed.1 * n)
  | other =>
    let ds := other.takeWhile Char.isDigit
    if ds.isEmpty then none else some (signed.1 * digitsToNat ds)

/-- Keys below this bound (as canonical numerals) are array indices and are
enumerated first, in ascending numeric order (ECMAScript own-key order). -/
def arrayIndexBound : Nat := 2 ^ 32 - 1

/-- `Object.entries` on a record whose keys are (coerced) numbers:
array-index keys in ascending numeric order, then the rest in insertion
order.  The config's VLAN ids are positive integers, so in practice the
whole record is sorted by id. -/
def jsEntriesNat (l : List (Nat × String)) : List (Nat × String) :=
  List.insertionSort (fun a b => a.1 ≤ b.1) (l.filter (fun v => v.1 < arrayIndexBound))
    ++ l.filter (fun v => !(v.1 < arrayIndexBound : Bool))

/-- Decimal value of a string that consists of digits only (otherwise
`none`). -/
def strToNat (s : String) : Option Nat :=
  if !s.data.isEmpty && s.data.all Char.isDigit then some (digitsToNat s.data)
  else none

/-- Is `s` a canonical array-index key ("0", "1", ..., no leading zeros,
below `2 ^ 32 - 1`)? -/
def isIndexKey (s : String) : Bool :=
  match strToNat s with
  | some n => n < arrayIndexBound && natToStr n == s
  | none => false

/-- `Object.entries` on a record with string keys (templates, switches):
canonical array-index keys first in ascending numeric order, then the
remaining keys in insertion order. -/
def jsEntriesStr {α : Type} (l : List (String × α)) : List (String × α) :=
  List.insertionSort (fun a b => (strToNat a.1).getD 0 ≤ (strToNat b.1).getD 0)
      (l.filter (fun e => isIndexKey e.1))
    ++ l.filter (fun e => !isIndexKey e.1)

/-- Characters `encodeURIComponent` leaves unescaped:
`A-Z a-z 0-9 - _ . ! ~ * ' ( )`. -/
def uriUnreserved (c : Char) : Bool :=
  (65 ≤ c.toNat && c.toNat ≤ 90) || (97 ≤ c.toNat && c.toNat ≤ 122) ||
  (48 ≤ c.toNat && c.toNat ≤ 57) ||
  c = '-' || c = '_' || c = '.' || c = '!' || c = '~' || c = '*' ||
  c = '\'' || c = '(' || c = ')'

/-- UTF-8 encoding of one scalar value, as byte values. -/
def utf8Bytes (c : Char) : List Nat :=
  let n := c.toNat
  if n < 0x80 then [n]
  else if n < 0x800 then [0xC0 + n / 0x40, 0x80 + n % 0x40]
  else if n < 0x10000 then
    [0xE0 + n / 0x1000, 0x80 + (n / 0x40) % 0x40, 0x80 + n % 0x40]
  else
    [0xF0 + n / 0x40000, 0x80 + (n / 0x1000) % 0x40, 0x80 + (n / 0x40) % 0x40,
      0x80 + n % 0x40]

/-- Uppercase hexadecimal letter character (for digit values 10-15). -/
def hexLetter (d : Nat) : Char :=
  if d = 0 then 'A' else if d = 1 then 'B' else if d = 2 then 'C'
  else if d = 3 then 'D' else if d = 4 then 'E' else 'F'

/-- Uppercase hexadecimal digit character. -/
def hexUpper (d : Nat) : Char :=
  if d < 10 then digitCh d else hexLetter (d - 10)

/-- Percent-escape of one byte, `%XX`. -/
def pctEncodeByte (b : Nat) : List Char :=
  ['%', hexUpper (b / 16), hexUpper (b % 16)]

/-- `encodeURIComponent`: unreserved characters kept, every other
character percent-encoded per UTF-8 byte. -/
def encodeURIComponent (s : String) : String :=
  String.mk ((s.data.map (fun c =>
    if uriUnreserved c then [c] else (utf8Bytes c).flatMap pctEncodeByte)).flatten)

/-- `.length` of a JavaScript string: UTF-16 code units. -/
def utf16Width (c : Char) : Nat :=
  if c.toNat < 0x10000 then 1 else 2

/-- `.length` of a JavaScript string: UTF-16 code units. -/
def jsLength (s : String) : Nat :=
  (s.data.map utf16Width).sum

/-- Byte length of the UTF-8 encoding of a string. -/
def byteLength (s : String) : Nat :=
  (s.data.map (fun c => (utf8Bytes c).length)).sum

/-! ## The compiler (`generateHttpRequests`, lines 170-282) -/

/-- Numeric three-state code of a membership status, exactly the if-chain
of lines 202-208: `pvid` is 0, `tagged` is 1, anything else is 2. -/
def statusValue (status : Option VlanStatus) : Nat :=
  if status = some VlanStatus.pvid then 0
  else if status = some VlanStatus.tagged then 1
  else 2

/-- The positional parameter pushed for port `i` while compiling one VLAN
(lines 187-211).  An unresolved template reference pushes `vlanPort_i=0`
(line 193); a resolved template pushes the `statusValue` code of the
template's entry for this VLAN. -/
def vlanPortParam (templates : List (String × Template)) (vlanId : Nat)
    (i : Nat) (p : PortEntry) : String :=
  match templates.lookup p.template with
  | none => "vlanPort_" ++ natToStr i ++ "=0"
  | some t => "vlanPort_" ++ natToStr i ++ "=" ++ natToStr (statusValue (t.lookup vlanId))

/-- The parameter list of one membership command body (lines 180-211):
`vid`, URL-escaped `name`, then one positional parameter per port. -/
def membershipParams (templates : List (String × Template)) (sd : SwitchData)
    (v : Nat × String) : List String :=
  ("vid=" ++ natToStr v.1) :: ("name=" ++ encodeURIComponent v.2) ::
    sd.ports.enum.map (fun ip => vlanPortParam templates v.1 ip.1 ip.2)

/-- The fixed header template of every compiled command (lines 216-223 and
252-259).  `Content-Length` is `body.length.toString()`, the UTF-16 length. -/
def mkHeaders (sd : SwitchData) (body : String) : List (String × String) :=
  [("Host", sd.address),
   ("User-Agent", "curl/8.7.1"),
   ("Accept", "*/*"),
   ("Cookie", sd.auth.user ++ "=" ++ sd.auth.resp),
   ("Content-Length", natToStr (jsLength body)),
   ("Content-Type", "application/x-www-form-urlencoded")]

/-- One VLAN membership command (lines 213-230). -/
def membershipRequest (templates : List (String × Template)) (sd : SwitchData)
    (v : Nat × String) : HttpRequest :=
  let body := joinSep "&" (membershipParams templates sd v)
  { method := "POST", url := "/vlan.cgi?page=static",
    headers := mkHeaders sd body, body := body }

/-- First VLAN (in iteration order) whose status in the template is `pvid`
(the `break` loop of lines 243-271). -/
def findPvidVlan (t : Template) : List (Nat × String) → Option Nat
  | [] => none
  | v :: rest => if t.lookup v.1 = some VlanStatus.pvid then some v.1 else findPvidVlan t rest

/-- One PVID command for port index `i` (lines 248-266). -/
def pvidRequest (sd : SwitchData) (i vid : Nat) : HttpRequest :=
  let body := "ports=" ++ natToStr i ++ "&pvid=" ++ natToStr vid ++ "&vlan_accept_frame_type=0"
  { method := "POST", url := "/vlan.cgi?page=port_based",
    headers := mkHeaders sd body, body := body }

/-- The PVID command a single port contributes (lines 234-272): nothing if
the template reference is unresolved, otherwise one command for the first
`pvid`-marked VLAN, if any. -/
def portPvidCmd (cfg : VlanConfig) (sd : SwitchData) (ip : Nat × PortEntry) :
    Option HttpRequest :=
  match cfg.templates.lookup ip.2.template with
  | none => none
  | some t => (findPvidVlan t (jsEntriesNat cfg.vlans)).map (pvidRequest sd ip.1)

/-- All commands of one switch: a membership command per VLAN in iteration
order, then the PVID commands in port order. -/
def switchRequests (cfg : VlanConfig) (sd : SwitchData) : List HttpRequest :=
  (jsEntriesNat cfg.vlans).map (membershipRequest cfg.templates sd)
    ++ sd.ports.enum.filterMap (portPvidCmd cfg sd)

/-- `generateHttpRequests(config, cookies)` (lines 170-282).  Line 175
reads the cookie map into a variable that the function never uses; the
`Cookie` header comes from the switch's static auth config. -/
def generateHttpRequests (cfg : VlanConfig) (cookies : List (String × String)) :
    List SwitchHttpRequests :=
  (jsEntriesStr cfg.switches).map (fun e =>
    let _cookie := (cookies.lookup e.1).getD ""
    { switch := e.1, address := e.2.address, requests := switchRequests cfg e.2 })

/-! ## The JSON view (`transformVlans`, lines 122-168) -/

/-- One entry of the JSON view (interface `VlanPortMembership`). -/
structure VlanPortMembership where
  vlanId : Nat
  vlanName : String
  ports : List (String × PortStatus)
deriving DecidableEq, Repr

/-- One switch of the JSON view (interface `SwitchConfig`). -/
structure SwitchConfigOut where
  switch : String
  name : String
  address : String
  vlans : List VlanPortMembership
deriving DecidableEq, Repr

/-- Membership of one port in one VLAN (lines 134-150): an unresolved
template reference yields `not-member`, otherwise the template's entry
(absent entries are `not-member`). -/
def portMembership (templates : List (String × Template)) (vlanId : Nat)
    (p : PortEntry) : PortStatus :=
  match templates.lookup p.template with
  | none => PortStatus.notMember
  | some t =>
    match t.lookup vlanId with
    | some VlanStatus.pvid => PortStatus.pvid
    | some VlanStatus.tagged => PortStatus.tagged
    | none => PortStatus.notMember

/-- `transformVlans(config)` (lines 122-168). -/
def transformVlans (cfg : VlanConfig) : List SwitchConfigOut :=
  (jsEntriesStr cfg.switches).map (fun e =>
    { switch := e.1, name := e.2.name, address := e.2.address,
      vlans := (jsEntriesNat cfg.vlans).map (fun v =>
        { vlanId := v.1, vlanName := v.2,
          ports := e.2.ports.map (fun p => (p.name, portMembership cfg.templates v.1 p)) }) })

/-! ## The filter stage (`filterConfig`, lines 71-120) -/

/-- The VLAN filter predicate of lines 82-90: `parseInt(filter)` rendered
back must equal the entry's key string, or the names must agree after
`toLowerCase()`. -/
def vlanFilterMatch (vlanIdKey vlanName filter : String) : Bool :=
  let matchesId :=
    match jsParseInt filter with
    | some n => intToStr n == vlanIdKey
    | none => false
  let matchesName := jsToLower vlanName == jsToLower filter
  matchesId || matchesName

/-- `filterConfig(config, switchFilters, vlanFilters)` (lines 71-120):
templates pass through; an empty filter list passes the collection
through; otherwise only matching entries are kept (in iteration order). -/
def filterConfig (config : VlanConfig) (switchFilters vlanFilters : List String) :
    VlanConfig :=
  { vlans :=
      if vlanFilters.isEmpty then config.vlans
      else (jsEntriesNat config.vlans).filter (fun v =>
        vlanFilters.any (fun f => vlanFilterMatch (natToStr v.1) v.2 f)),
    templates := config.templates,
    switches :=
      if switchFilters.isEmpty then config.switches
      else (jsEntriesStr config.switches).filter (fun e => switchFilters.contains e.1) }

/-- Modelled from the spec (for comparison with `vlanFilterMatch`): a
filter entry matches a VLAN iff it equals its name case-insensitively or
is a numeric string whose parsed value is the VLAN's id. -/
def specVlanMatch (id : Nat) (name filter : String) : Bool :=
  jsToLower name == jsToLower filter ||
  (!filter.isEmpty && filter.data.all Char.isDigit && digitsToNat filter.data == id)

/-- Modelled from the spec (for comparison with `filterConfig`): the filter
stage with the spec's wording of the VLAN match. -/
def specFilterConfig (config : VlanConfig) (switchFilters vlanFilters : List String) :
    VlanConfig :=
  { vlans :=
      if vlanFilters.isEmpty then config.vlans
      else (jsEntriesNat config.vlans).filter (fun v =>
        vlanFilters.any (fun f => specVlanMatch v.1 v.2 f)),
    templates := config.templates,
    switches :=
      if switchFilters.isEmpty then config.switches
      else (jsEntriesStr config.switches).filter (fun e => switchFilters.contains e.1) }

/-! ## The CLI handler's decision logic (lines 479-647) -/

/-- What a single invocation does, after config loading and validation. -/
inductive CliOutcome where
  | usageError (msg : String)
  | httpDisplay (reqs : List SwitchHttpRequests)
  | httpExecute (reqs : List SwitchHttpRequests) (saveReqs : List HttpRequest)
  | jsonOutput (out : List SwitchConfigOut)
deriving DecidableEq, Repr

/-- `loginToSwitch` (lines 370-391) never fails and returns the static
`user=resp` cookie; the execute path collects one per switch. -/
def loginCookies (cfg : VlanConfig) : List (String × String) :=
  (jsEntriesStr cfg.switches).map (fun e => (e.1, e.2.auth.user ++ "=" ++ e.2.auth.resp))

/-- The save command of lines 592-604. -/
def saveRequest (cookies : List (String × String)) (key : String) (sd : SwitchData) :
    HttpRequest :=
  { method := "POST", url := "/save.cgi",
    headers :=
      [("Host", sd.address),
       ("User-Agent", "curl/8.7.1"),
       ("Accept", "*/*"),
       ("Cookie", (cookies.lookup key).getD (sd.auth.user ++ "=" ++ sd.auth.resp)),
       ("Content-Length", "0"),
       ("Content-Type", "application/x-www-form-urlencoded")],
    body := "" }

/-- The control flow of the CLI handler (lines 479-647) after successful
config load, validation and filtering: flag checks, then either a usage
error, the JSON view, a display of the compiled requests, or their
execution (optionally followed by save commands). -/
def runCli (cfg : VlanConfig) (http execute save : Bool)
    (switchFilter vlanFilter : List String) : CliOutcome :=
  let filtered := filterConfig cfg switchFilter vlanFilter
  if http then
    if save && !execute then CliOutcome.usageError "Error: --save requires --execute flag"
    else
      let cookies := if execute then loginCookies filtered else []
      let reqs := generateHttpRequests filtered cookies
      if execute then
        let saves :=
          if save then
            reqs.filterMap (fun swr =>
              (filtered.switches.lookup swr.switch).map (saveRequest cookies swr.switch))
          else []
        CliOutcome.httpExecute reqs saves
      else CliOutcome.httpDisplay reqs
  else
    if execute then CliOutcome.usageError "Error: --execute requires --http flag"
    else if save then CliOutcome.usageError "Error: --save requires --execute flag"
    else CliOutcome.jsonOutput (transformVlans filtered)

/-- The HTTP requests an outcome sends over the network: only the execute
branch performs network calls (display and JSON output print locally). -/
def executedRequests : CliOutcome → List HttpRequest
  | CliOutcome.usageError _ => []
  | CliOutcome.httpDisplay _ => []
  | CliOutcome.httpExecute reqs saves => (reqs.map SwitchHttpRequests.requests).flatten ++ saves
  | CliOutcome.jsonOutput _ => []

/-! ## Response parsing of the raw client (`customFetch`, lines 337-368) -/

/-- The parsed response (the object literal of lines 361-367). -/
structure FetchResponse where
  ok : Bool
  status : Nat
  statusText : String
  headers : List (String × String)
  body : String
deriving DecidableEq, Repr

/-- Does `pat` occur at the head of `cs`? -/
def startsWithChars : List Char → List Char → Bool
  | [], _ => true
  | _ :: _, [] => false
  | p :: ps, c :: cs => p = c && startsWithChars ps cs

/-- `String.prototype.indexOf`: position of the first occurrence of `pat`. -/
def findSub (pat : List Char) : List Char → Option Nat
  | [] => if pat.isEmpty then some 0 else none
  | c :: cs =>
    if startsWithChars pat (c :: cs) then some 0
    else (findSub pat cs).map (· + 1)

/-- The blank-line separator `\r\n\r\n`. -/
def crlf2 : List Char := ['\r', '\n', '\r', '\n']

/-- Splitting on every (non-overlapping, leftmost) occurrence of `sep`;
the fuel argument bounds the recursion and is supplied as the input
length, which is always enough since each step consumes at least one
character. -/
def splitOnSubAux (sep : List Char) : Nat → List Char → List Char → List (List Char)
  | 0, rest, acc => [acc.reverse ++ rest]
  | _ + 1, [], acc => [acc.reverse]
  | fuel + 1, c :: cs, acc =>
    if startsWithChars sep (c :: cs) then
      acc.reverse :: splitOnSubAux sep fuel (List.drop sep.length (c :: cs)) []
    else splitOnSubAux sep fuel cs (c :: acc)

/-- `String.prototype.split(sep)` for a non-empty string separator. -/
def jsSplitOn (s sep : String) : List String :=
  (splitOnSubAux sep.data (s.data.length + 1) s.data []).map String.mk

/-- Consume the literal `lit` from the head of `cs`. -/
def dropLit : List Char → List Char → Option (List Char)
  | [], cs => some cs
  | _ :: _, [] => none
  | l :: ls, c :: cs => if c = l then dropLit ls cs else none

/-- Try the regex `HTTP\/1\.\d (\d+) (.+)` at the head of `cs`, returning
the status code and status text captures. -/
def matchStatusAt (cs : List Char) : Option (Nat × String) :=
  match dropLit "HTTP/1.".data cs with
  | none => none
  | some cs1 =>
    match cs1 with
    | d :: ' ' :: cs2 =>
      if d.isDigit then
        let g1 := cs2.takeWhile Char.isDigit
        let cs3 := cs2.dropWhile Char.isDigit
        if g1.isEmpty then none
        else
          match cs3 with
          | ' ' :: cs4 =>
            let g2 := cs4.takeWhile (fun c => !(c = '\n' || c = '\r'))
            if g2.isEmpty then none else some (digitsToNat g1, String.mk g2)
          | _ => none
      else none
    | _ => none

/-- Unanchored search of the status-line regex (line 339): first position
where it matches. -/
def statusSearch : List Char → Option (Nat × String)
  | [] => none
  | c :: cs =>
    match matchStatusAt (c :: cs) with
    | some r => some r
    | none => statusSearch cs

/-- `Map.prototype.set`: replace in place or append. -/
def jsMapSet (m : List (String × String)) (k v : String) : List (String × String) :=
  if m.any (fun e => e.1 == k) then m.map (fun e => if e.1 == k then (k, v) else e)
  else m ++ [(k, v)]

/-- The header loop of lines 348-356: stop at the first empty line, split
each line on `": "`, skip lines without a key or a value, store the key
lowercased. -/
def collectHeaders : List String → List (String × String) → List (String × String)
  | [], acc => acc
  | line :: rest, acc =>
    if line = "" then acc
    else
      match jsSplitOn line ": " with
      | [] => collectHeaders rest acc
      | [_] => collectHeaders rest acc
      | key :: vps =>
        if key = "" then collectHeaders rest acc
        else collectHeaders rest (jsMapSet acc (jsToLower key) (joinSep ": " vps))

/-- Response parsing of `customFetch` (lines 337-368): split the buffered
text into CRLF lines, match the status line, collect headers up to the
first blank line, and take the body from after the first `\r\n\r\n` —
or the empty string when there is none (line 359). -/
def parseHttpResponse (responseText : String) : Except String FetchResponse :=
  match statusSearch (((jsSplitOn responseText "\r\n").headD "").data) with
  | none => Except.error "Invalid HTTP response"
  | some st =>
    Except.ok
      { ok := decide (200 ≤ st.1 ∧ st.1 < 300), status := st.1, statusText := st.2,
        headers := collectHeaders ((jsSplitOn responseText "\r\n").tail) [],
        body :=
          match findSub crlf2 responseText.data with
          | some i => String.mk (responseText.data.drop (i + 4))
          | none => "" }

instance : DecidableEq (Except String FetchResponse) := fun a b =>
  match a, b with
  | Except.error x, Except.error y =>
    if h : x = y then isTrue (by rw [h]) else isFalse (fun hc => h (Except.error.inj hc))
  | Except.ok x, Except.ok y =>
    if h : x = y then isTrue (by rw [h]) else isFalse (fun hc => h (Except.ok.inj hc))
  | Except.error _, Except.ok _ => isFalse (fun hc => Except.noConfusion hc)
  | Except.ok _, Except.error _ => isFalse (fun hc => Except.noConfusion hc)

/-! ## Concrete configurations used by witnesses and counterexamples -/

/-- The trunk template of the spec's worked example: VLAN 10 tagged,
VLAN 20 pvid. -/
def tTrunk : Template := [(10, VlanStatus.tagged), (20, VlanStatus.pvid)]

/-- The second template of the spec's worked example: VLAN 10 pvid. -/
def tAcc : Template := [(10, VlanStatus.pvid)]

/-- The switch of the spec's worked example: two ports, templates
`trunk` and `acc`. -/
def sdEx : SwitchData :=
  { name := "Switch 1", address := "10.0.0.2",
    auth := { user := "admin", pass := "pw", resp := "r" },
    ports := [{ name := "p1", template := "trunk" }, { name := "p2", template := "acc" }] }

/-- The spec's worked example config (section 8). -/
def cfgEx : VlanConfig :=
  { vlans := [(10, "data"), (20, "voice")],
    templates := [("trunk", tTrunk), ("acc", tAcc)],
    switches := [("sw1", sdEx)] }

/-- A config with one port whose template reference does not resolve and
one port with a resolvable template. -/
def cfgC1 : VlanConfig :=
  { vlans := [(10, "data"), (20, "voice")],
    templates := [("trunk", tTrunk)],
    switches := [("sw1",
      { name := "Switch 1", address := "10.0.0.2",
        auth := { user := "admin", pass := "pw", resp := "r" },
        ports := [{ name := "p1", template := "missing" },
                  { name := "p2", template := "trunk" }] })] }

/-- A config whose VLAN record lists id 20 before id 10 (YAML insertion
order descending). -/
def cfgC3 : VlanConfig :=
  { vlans := [(20, "voice"), (10, "data")],
    templates := [("trunk", tTrunk)],
    switches := [("sw1",
      { name := "Switch 1", address := "10.0.0.2",
        auth := { user := "admin", pass := "pw", resp := "r" },
        ports := [{ name := "p1", template := "trunk" }] })] }

/-- A placeholder switch-request record for `List.headD`. -/
def dummySwr : SwitchHttpRequests := { switch := "", address := "", requests := [] }


/-- Bodies of the compiled commands of one switch, in order. -/
def requestBodies (swr : SwitchHttpRequests) : List String :=
  swr.requests.map HttpRequest.body

/-- Bodies of all compiled commands, per switch, in order. -/
def allBodies (rs : List SwitchHttpRequests) : List (List String) :=
  rs.map requestBodies

/-- A placeholder request for `List.headD`. -/
def dummyReq : HttpRequest := { method := "", url := "", headers := [], body := "" }

/-! ## Supporting lemmas -/

theorem jsEntriesNat_perm (l : List (Nat × String)) : (jsEntriesNat l).Perm l := by
  unfold jsEntriesNat
  exact ((List.perm_insertionSort _ _).append_right _).trans (List.filter_append_perm _ l)

theorem jsEntriesStr_perm {α : Type} (l : List (String × α)) : (jsEntriesStr l).Perm l := by
  unfold jsEntriesStr
  exact ((List.perm_insertionSort _ _).append_right _).trans (List.filter_append_perm _ l)

theorem mem_jsEntriesNat {v : Nat × String} {l : List (Nat × String)} :
    v ∈ jsEntriesNat l ↔ v ∈ l :=
  (jsEntriesNat_perm l).mem_iff

theorem mem_jsEntriesStr {α : Type} {e : String × α} {l : List (String × α)} :
    e ∈ jsEntriesStr l ↔ e ∈ l :=
  (jsEntriesStr_perm l).mem_iff

instance : IsTotal (Nat × String) (fun a b => a.1 ≤ b.1) :=
  ⟨fun a b => Nat.le_total a.1 b.1⟩

instance : IsTrans (Nat × String) (fun a b => a.1 ≤ b.1) :=
  ⟨fun _ _ _ h h' => Nat.le_trans h h'⟩

theorem jsEntriesNat_sorted (l : List (Nat × String))
    (h : ∀ v ∈ l, v.1 < arrayIndexBound) :
    ((jsEntriesNat l).map Prod.fst).Sorted (· ≤ ·) := by
  unfold jsEntriesNat
  have h2 : l.filter (fun v => !(v.1 < arrayIndexBound : Bool)) = [] := by
    rw [List.filter_eq_nil_iff]
    intro a ha
    simpa using h a ha
  rw [h2, List.append_nil]
  have hs := List.sorted_insertionSort (fun a b : Nat × String => a.1 ≤ b.1)
    (l.filter (fun v => v.1 < arrayIndexBound))
  exact List.Pairwise.map Prod.fst (fun _ _ hab => hab) hs

theorem length_filterMap_isSome {α β : Type} (f : α → Option β) (l : List α) :
    (l.filterMap f).length = l.countP (fun a => (f a).isSome) := by
  induction l with
  | nil => rfl
  | cons x xs ih =>
    cases hx : f x <;>
      simp [List.filterMap_cons, hx, List.countP_cons, ih]

theorem findPvidVlan_eq_head_filter (t : Template) (l : List (Nat × String)) :
    findPvidVlan t l
      = ((l.filter (fun v => t.lookup v.1 = some VlanStatus.pvid)).head?).map Prod.fst := by
  induction l with
  | nil => rfl
  | cons v rest ih =>
    by_cases h : t.lookup v.1 = some VlanStatus.pvid
    · simp [findPvidVlan, h, List.filter_cons]
    · simp [findPvidVlan, h, List.filter_cons, ih]

/-- A string whose scalar values are all ASCII. -/
def AsciiStr (s : String) : Prop := ∀ c ∈ s.data, c.toNat < 128

instance (s : String) : Decidable (AsciiStr s) :=
  inferInstanceAs (Decidable (∀ c ∈ s.data, c.toNat < 128))

theorem digitCh_ascii (d : Nat) : (digitCh d).toNat < 128 := by
  unfold digitCh
  repeat' split
  all_goals decide

theorem natDigitsAux_ascii (fuel : Nat) : ∀ (n : Nat), ∀ c ∈ natDigitsAux fuel n, c.toNat < 128 := by
  induction fuel with
  | zero => intro n c hc; simp [natDigitsAux] at hc
  | succ f ih =>
    intro n c hc
    unfold natDigitsAux at hc
    split at hc
    · simp at hc
      subst hc
      exact digitCh_ascii n
    · rcases List.mem_append.mp hc with hc | hc
      · exact ih (n / 10) c hc
      · simp at hc
        subst hc
        exact digitCh_ascii (n % 10)

theorem natToStr_ascii (n : Nat) : AsciiStr (natToStr n) := by
  intro c hc
  exact natDigitsAux_ascii (n + 1) n c hc

theorem asciiStr_append {a b : String} (ha : AsciiStr a) (hb : AsciiStr b) :
    AsciiStr (a ++ b) := by
  intro c hc
  rw [String.data_append] at hc
  rcases List.mem_append.mp hc with h | h
  · exact ha c h
  · exact hb c h

theorem uriUnreserved_ascii {c : Char} (h : uriUnreserved c = true) : c.toNat < 128 := by
  unfold uriUnreserved at h
  simp only [Bool.or_eq_true, Bool.and_eq_true, decide_eq_true_eq] at h
  casesm* _ ∨ _
  all_goals first
    | omega
    | (subst_vars; decide)

theorem hexLetter_ascii (d : Nat) : (hexLetter d).toNat < 128 := by
  unfold hexLetter
  repeat' split
  all_goals decide

theorem hexUpper_ascii (d : Nat) : (hexUpper d).toNat < 128 := by
  unfold hexUpper
  split
  · exact digitCh_ascii d
  · exact hexLetter_ascii (d - 10)

theorem pctEncodeByte_ascii {c : Char} {b : Nat} (h : c ∈ pctEncodeByte b) :
    c.toNat < 128 := by
  unfold pctEncodeByte at h
  simp only [List.mem_cons, List.not_mem_nil, or_false] at h
  rcases h with h | h | h
  · subst h; decide
  · subst h; exact hexUpper_ascii _
  · subst h; exact hexUpper_ascii _

theorem encodeURIComponent_ascii (s : String) : AsciiStr (encodeURIComponent s) := by
  intro c hc
  unfold encodeURIComponent at hc
  simp only [List.mem_flatten, List.mem_map] at hc
  obtain ⟨cs, ⟨a, _, rfl⟩, hcs⟩ := hc
  by_cases hu : uriUnreserved a = true
  · rw [if_pos hu] at hcs
    simp at hcs
    subst hcs
    exact uriUnreserved_ascii hu
  · rw [if_neg hu] at hcs
    obtain ⟨b, _, hb⟩ := List.mem_flatMap.mp hcs
    exact pctEncodeByte_ascii hb

theorem joinSep_ascii {sep : String} (hsep : AsciiStr sep) :
    ∀ {ps : List String}, (∀ p ∈ ps, AsciiStr p) → AsciiStr (joinSep sep ps) := by
  intro ps
  induction ps with
  | nil =>
    intro _ c hc
    simp [joinSep] at hc
  | cons x xs ih =>
    intro h
    cases xs with
    | nil => exact h x (by simp)
    | cons y ys =>
      exact asciiStr_append
        (asciiStr_append (h x (by simp)) hsep)
        (ih (fun p hp => h p (List.mem_cons_of_mem x hp)))

theorem utf16Width_of_ascii {c : Char} (h : c.toNat < 128) : utf16Width c = 1 := by
  unfold utf16Width
  rw [if_pos (by omega)]

theorem utf8Bytes_length_of_ascii {c : Char} (h : c.toNat < 128) :
    (utf8Bytes c).length = 1 := by
  unfold utf8Bytes
  rw [if_pos (by omega)]
  rfl

theorem jsLength_eq_byteLength {s : String} (h : AsciiStr s) :
    jsLength s = byteLength s := by
  unfold jsLength byteLength
  have : ∀ l : List Char, (∀ c ∈ l, c.toNat < 128) →
      ((l.map utf16Width).sum = (l.map (fun c => (utf8Bytes c).length)).sum) := by
    intro l hl
    induction l with
    | nil => rfl
    | cons c cs ih =>
      simp only [List.map_cons, List.sum_cons]
      rw [utf16Width_of_ascii (hl c (by simp)),
        utf8Bytes_length_of_ascii (hl c (by simp)),
        ih (fun d hd => hl d (List.mem_cons_of_mem c hd))]
  exact this s.data h

theorem vlanPortParam_ascii (tpl : List (String × Template)) (vid i : Nat)
    (p : PortEntry) : AsciiStr (vlanPortParam tpl vid i p) := by
  unfold vlanPortParam
  cases tpl.lookup p.template with
  | none =>
    exact asciiStr_append (asciiStr_append (by decide) (natToStr_ascii i)) (by decide)
  | some t =>
    exact asciiStr_append
      (asciiStr_append (asciiStr_append (by decide) (natToStr_ascii i)) (by decide))
      (natToStr_ascii _)

theorem membershipParams_ascii (tpl : List (String × Template)) (sd : SwitchData)
    (v : Nat × String) : ∀ p ∈ membershipParams tpl sd v, AsciiStr p := by
  intro p hp
  unfold membershipParams at hp
  simp only [List.mem_cons] at hp
  rcases hp with rfl | rfl | hp
  · exact asciiStr_append (by decide) (natToStr_ascii _)
  · exact asciiStr_append (by decide) (encodeURIComponent_ascii _)
  · obtain ⟨ip, _, rfl⟩ := List.mem_map.mp hp
    exact vlanPortParam_ascii _ _ _ _

theorem membershipBody_ascii (tpl : List (String × Template)) (sd : SwitchData)
    (v : Nat × String) : AsciiStr (joinSep "&" (membershipParams tpl sd v)) :=
  joinSep_ascii (by decide) (membershipParams_ascii tpl sd v)

theorem pvidBody_ascii (i vid : Nat) :
    AsciiStr ("ports=" ++ natToStr i ++ "&pvid=" ++ natToStr vid
      ++ "&vlan_accept_frame_type=0") :=
  asciiStr_append
    (asciiStr_append
      (asciiStr_append (asciiStr_append (by decide) (natToStr_ascii i)) (by decide))
      (natToStr_ascii vid))
    (by decide)

/-! ## Claim theorems -/

/-- C10: for every config, `generateHttpRequests` produces identical output
for any two credential (cookie) maps — the `Cookie` header of every
compiled command is derived from the switch's static auth config
(`user=resp`, lines 220 and 256) and the cookie-map argument read on
line 175 is never used. -/
theorem generateHttpRequests_cookie_blind (cfg : VlanConfig)
    (c1 c2 : List (String × String)) :
    generateHttpRequests cfg c1 = generateHttpRequests cfg c2 := rfl

/-- C7: for every invocation with persistence (`--save`) requested but
execution not requested, the handler rejects the invocation with the usage
error of lines 503-506 / 636-639 — in both output modes — and the outcome
carries no network call at all. -/
theorem save_without_execute_is_usage_error (cfg : VlanConfig) (http : Bool)
    (sf vf : List String) :
    runCli cfg http false true sf vf
        = CliOutcome.usageError "Error: --save requires --execute flag" ∧
      executedRequests (runCli cfg http false true sf vf) = [] := by
  cases http <;> simp [runCli, executedRequests]

/-- C1 (evaluation of the code at the failing input): in `cfgC1`, port
`p1` references the unresolved template `missing`.  The compiler does keep
producing commands for all other ports and VLANs, but it encodes the
unresolved port as `vlanPort_0=0` in every membership body — and `0` is
the `pvid` code (`statusValue (some pvid) = 0`), not the `not-member` code
`2`, although `transformVlans` reports the very same port as
`not-member`. -/
theorem unresolved_template_gets_pvid_code :
    allBodies (generateHttpRequests cfgC1 []) =
      [["vid=10&name=data&vlanPort_0=0&vlanPort_1=1",
        "vid=20&name=voice&vlanPort_0=0&vlanPort_1=0",
        "ports=1&pvid=20&vlan_accept_frame_type=0"]] ∧
    statusValue (some VlanStatus.pvid) = 0 ∧
    statusValue none = 2 ∧
    portMembership cfgC1.templates 10 { name := "p1", template := "missing" }
      = PortStatus.notMember := by
  exact ⟨by decide, rfl, rfl, rfl⟩

/-- C3 counterexample: `cfgC3` lists VLAN 20 before VLAN 10 in the
mapping's insertion order, yet the compiled membership commands come out
in ascending id order (10 before 20), because `Object.entries` enumerates
integer-like keys numerically — so the commands are not emitted in
insertion order. -/
theorem membership_commands_not_insertion_order :
    cfgC3.vlans.map Prod.fst = [20, 10] ∧
    allBodies (generateHttpRequests cfgC3 []) =
      [["vid=10&name=data&vlanPort_0=1",
        "vid=20&name=voice&vlanPort_0=0",
        "ports=0&pvid=20&vlan_accept_frame_type=0"]] ∧
    allBodies (generateHttpRequests cfgC3 []) ≠
      [["vid=20&name=voice&vlanPort_0=0",
        "vid=10&name=data&vlanPort_0=1",
        "ports=0&pvid=20&vlan_accept_frame_type=0"]] := by
  exact ⟨by decide, by decide, by decide⟩

theorem length_membershipParams (tpl : List (String × Template)) (sd : SwitchData)
    (v : Nat × String) : (membershipParams tpl sd v).length = sd.ports.length + 2 := by
  simp [membershipParams]

/-- C2: for a port with a resolvable template, the positional parameter of
the membership command (position `i + 2` of the body's parameter list,
after `vid` and `name`) carries code 0 when the template marks the VLAN
`pvid`, 1 when it marks it `tagged`, and 2 when the VLAN is absent from
the template. -/
theorem membership_positional_code (tpl : List (String × Template)) (sd : SwitchData)
    (vid : Nat) (vname : String) (i : Nat) (hi : i < sd.ports.length) (t : Template)
    (ht : tpl.lookup (sd.ports.get ⟨i, hi⟩).template = some t) :
    (membershipParams tpl sd (vid, vname)).get
        ⟨i + 2, by rw [length_membershipParams]; omega⟩ =
      "vlanPort_" ++ natToStr i ++ "=" ++
        (if t.lookup vid = some VlanStatus.pvid then "0"
         else if t.lookup vid = some VlanStatus.tagged then "1" else "2") := by
  have e1 : (membershipParams tpl sd (vid, vname)).get
        ⟨i + 2, by rw [length_membershipParams]; omega⟩
      = (sd.ports.enum.map (fun ip => vlanPortParam tpl vid ip.1 ip.2)).get
          ⟨i, by simpa [List.enum_length] using hi⟩ := rfl
  have e2 : vlanPortParam tpl vid i (sd.ports.get ⟨i, hi⟩)
      = "vlanPort_" ++ natToStr i ++ "=" ++ natToStr (statusValue (t.lookup vid)) := by
    unfold vlanPortParam
    rw [ht]
  rw [e1, List.get_eq_getElem, List.getElem_map, List.getElem_enum]
  show vlanPortParam tpl vid i (sd.ports.get ⟨i, hi⟩) = _
  rw [e2]
  cases hl : t.lookup vid with
  | none => rfl
  | some st => cases st <;> rfl

/-- Witness for C2 at the worked example: port 0 of `sdEx` uses template
`trunk`, which marks VLAN 20 `pvid`, so parameter 2 of the VLAN-20
membership body is `vlanPort_0=0`. -/
theorem membership_positional_code_witness :
    cfgEx.templates.lookup (sdEx.ports.get ⟨0, by decide⟩).template = some tTrunk ∧
    (membershipParams cfgEx.templates sdEx (20, "voice")).get ⟨2, by decide⟩
      = "vlanPort_0=0" := by
  refine ⟨by decide, ?_⟩
  have h := membership_positional_code cfgEx.templates sdEx 20 "voice" 0 (by decide)
    tTrunk (by decide)
  exact h.trans (by decide)

/-- VLANs a template marks `pvid`, in the record's iteration order. -/
def pvidVlansOf (cfg : VlanConfig) (t : Template) : List (Nat × String) :=
  (jsEntriesNat cfg.vlans).filter (fun v => t.lookup v.1 = some VlanStatus.pvid)

/-- C4: a port whose (resolvable) template marks no VLAN of the compiled
config `pvid` contributes no PVID command; a port whose template marks at
least one VLAN `pvid` contributes exactly one PVID command, for the
first-encountered such VLAN in VLAN iteration order (in particular,
exactly one command when there is exactly one such VLAN, and a silent
first-match tie-break when there are several); the number of PVID commands
of a switch is exactly the number of ports contributing one. -/
theorem pvid_command_per_port (cfg : VlanConfig) (sd : SwitchData) (i : Nat)
    (p : PortEntry) (t : Template)
    (ht : cfg.templates.lookup p.template = some t) :
    (pvidVlansOf cfg t = [] → portPvidCmd cfg sd (i, p) = none) ∧
    (∀ v rest, pvidVlansOf cfg t = v :: rest →
      portPvidCmd cfg sd (i, p) = some (pvidRequest sd i v.1)) ∧
    (sd.ports.enum.filterMap (portPvidCmd cfg sd)).length
      = sd.ports.enum.countP (fun ip => (portPvidCmd cfg sd ip).isSome) := by
  have hcmd : portPvidCmd cfg sd (i, p)
      = (findPvidVlan t (jsEntriesNat cfg.vlans)).map (pvidRequest sd i) := by
    unfold portPvidCmd
    rw [ht]
  have hfind := findPvidVlan_eq_head_filter t (jsEntriesNat cfg.vlans)
  refine ⟨?_, ?_, length_filterMap_isSome _ _⟩
  · intro h0
    unfold pvidVlansOf at h0
    rw [hcmd, hfind, h0]
    rfl
  · intro v rest hv
    unfold pvidVlansOf at hv
    rw [hcmd, hfind, hv]
    rfl

/-- Witness for C4 at the worked example: template `trunk` marks exactly
one VLAN (20) `pvid`, and port 0 contributes exactly the PVID command for
VLAN 20. -/
theorem pvid_command_per_port_witness :
    cfgEx.templates.lookup "trunk" = some tTrunk ∧
    pvidVlansOf cfgEx tTrunk = [(20, "voice")] ∧
    portPvidCmd cfgEx sdEx (0, { name := "p1", template := "trunk" })
      = some (pvidRequest sdEx 0 20) := by
  have h := pvid_command_per_port cfgEx sdEx 0 { name := "p1", template := "trunk" }
    tTrunk (by decide)
  exact ⟨by decide, by decide, h.2.1 (20, "voice") [] (by decide)⟩

/-- C3 (amended): for every switch of the compiled output, the command
list is exactly one membership command per VLAN of the (filtered) config —
emitted in ascending VLAN-id order, the iteration order of the
numerically-keyed VLAN record, not its insertion order — followed by all
PVID commands in port order; no PVID command precedes a membership
command.  (`hkeys` states that the VLAN ids are in the array-index range,
which positive VLAN ids always are.) -/
theorem requests_membership_then_pvid (cfg : VlanConfig) (ck : List (String × String))
    (hkeys : ∀ v ∈ cfg.vlans, v.1 < arrayIndexBound)
    (swr : SwitchHttpRequests) (hsw : swr ∈ generateHttpRequests cfg ck) :
    ∃ sd, (swr.switch, sd) ∈ cfg.switches ∧
      swr.requests =
        (jsEntriesNat cfg.vlans).map (membershipRequest cfg.templates sd)
          ++ sd.ports.enum.filterMap (portPvidCmd cfg sd) ∧
      (jsEntriesNat cfg.vlans).Perm cfg.vlans ∧
      ((jsEntriesNat cfg.vlans).map Prod.fst).Sorted (· ≤ ·) ∧
      (∀ r ∈ (jsEntriesNat cfg.vlans).map (membershipRequest cfg.templates sd),
        r.url = "/vlan.cgi?page=static") ∧
      (∀ r ∈ sd.ports.enum.filterMap (portPvidCmd cfg sd),
        r.url = "/vlan.cgi?page=port_based") := by
  obtain ⟨e, he, rfl⟩ := List.mem_map.mp hsw
  refine ⟨e.2, mem_jsEntriesStr.mp he, rfl, jsEntriesNat_perm _,
    jsEntriesNat_sorted _ hkeys, ?_, ?_⟩
  · intro r hr
    obtain ⟨v, _, rfl⟩ := List.mem_map.mp hr
    rfl
  · intro r hr
    obtain ⟨ip, _, hcmd⟩ := List.mem_filterMap.mp hr
    unfold portPvidCmd at hcmd
    split at hcmd
    · exact absurd hcmd (by simp)
    · rw [Option.map_eq_some'] at hcmd
      obtain ⟨vid, -, hv⟩ := hcmd
      rw [← hv]
      rfl

/-- Witness for C3 (amended) at the worked example: the head switch of the
compiled output carries 2 membership commands followed by 2 PVID commands. -/
theorem requests_membership_then_pvid_witness :
    ((generateHttpRequests cfgEx []).headD dummySwr).requests.length = 4 := by
  obtain ⟨sd, hmem, hreq, -, -, -, -⟩ :=
    requests_membership_then_pvid cfgEx [] (by decide)
      ((generateHttpRequests cfgEx []).headD dummySwr) (by decide)
  have hsd : sd = sdEx := congrArg Prod.snd (List.mem_singleton.mp hmem)
  subst hsd
  rw [hreq]
  decide

theorem filterConfig_switch_mem (cfg : VlanConfig) (sf vf : List String)
    {e : String × SwitchData} (he : e ∈ (filterConfig cfg sf vf).switches) :
    e ∈ cfg.switches := by
  have he' : e ∈ (if sf.isEmpty then cfg.switches
      else (jsEntriesStr cfg.switches).filter (fun e => sf.contains e.1)) := he
  split at he'
  · exact he'
  · exact mem_jsEntriesStr.mp (List.mem_of_mem_filter he')

/-- C5: every switch of the output compiled from a filtered config carries
the switch data of the original config unchanged, and every membership
command body lists, after `vid` and `name`, one positional parameter per
port whose embedded index is the port's zero-based position in that
original port sequence (`enum` indices are exactly `0, ..., n-1` in
order); VLAN filtering never changes these indices. -/
theorem vlanPort_index_is_original_position (cfg : VlanConfig) (sf vf : List String)
    (ck : List (String × String)) (swr : SwitchHttpRequests)
    (hsw : swr ∈ generateHttpRequests (filterConfig cfg sf vf) ck) :
    ∃ sd, (swr.switch, sd) ∈ cfg.switches ∧
      swr.requests =
        (jsEntriesNat (filterConfig cfg sf vf).vlans).map
            (membershipRequest (filterConfig cfg sf vf).templates sd)
          ++ sd.ports.enum.filterMap (portPvidCmd (filterConfig cfg sf vf) sd) ∧
      (∀ v : Nat × String,
        membershipParams (filterConfig cfg sf vf).templates sd v =
          ("vid=" ++ natToStr v.1) :: ("name=" ++ encodeURIComponent v.2) ::
            sd.ports.enum.map (fun ip =>
              vlanPortParam (filterConfig cfg sf vf).templates v.1 ip.1 ip.2)) ∧
      sd.ports.enum.map Prod.fst = List.range sd.ports.length := by
  obtain ⟨e, he, rfl⟩ := List.mem_map.mp hsw
  exact ⟨e.2, filterConfig_switch_mem cfg sf vf (mem_jsEntriesStr.mp he), rfl,
    fun v => rfl, List.enum_map_fst _⟩

/-- Witness for C5: filtering the worked example to VLAN `voice` only
still emits positional parameters for ports 0 and 1 of the original port
sequence. -/
theorem vlanPort_index_is_original_position_witness :
    requestBodies ((generateHttpRequests (filterConfig cfgEx [] ["voice"]) []).headD dummySwr) =
      ["vid=20&name=voice&vlanPort_0=0&vlanPort_1=2",
       "ports=0&pvid=20&vlan_accept_frame_type=0"] := by
  obtain ⟨sd, hmem, hreq, -, -⟩ :=
    vlanPort_index_is_original_position cfgEx [] ["voice"] []
      ((generateHttpRequests (filterConfig cfgEx [] ["voice"]) []).headD dummySwr) (by decide)
  have hsd : sd = sdEx := congrArg Prod.snd (List.mem_singleton.mp hmem)
  subst hsd
  unfold requestBodies
  rw [hreq]
  decide

theorem vlanFilterMatch_iff (idKey name f : String) :
    vlanFilterMatch idKey name f = true ↔
      (jsToLower name = jsToLower f ∨ (jsParseInt f).map intToStr = some idKey) := by
  unfold vlanFilterMatch
  cases hp : jsParseInt f with
  | none =>
    simp [hp]
  | some n =>
    simp only [hp, Option.map_some', Option.some.injEq, Bool.or_eq_true, beq_iff_eq]
    constructor <;> (intro h; tauto)

/-- C6 counterexample: the filter entry `10abc` is not a numeric string,
yet `filterConfig` retains VLAN 10 `data` for it, because
`parseInt("10abc")` parses the numeric prefix 10; the filter stage
modelled from the spec's words drops every VLAN for this filter list, so
the claimed iff fails on the code. -/
theorem vlan_filter_numeric_prefix_counterexample :
    (filterConfig cfgEx [] ["10abc"]).vlans = [(10, "data")] ∧
    (specFilterConfig cfgEx [] ["10abc"]).vlans = [] ∧
    specVlanMatch 10 "data" "10abc" = false := by
  exact ⟨by decide, by decide, by decide⟩

/-- C6 (amended): templates always pass through; an empty filter list
passes the corresponding collection through unchanged; a switch is
retained iff some switch-filter entry equals its key exactly; and a VLAN
is retained iff some filter entry equals its name after ASCII lowercasing
or JavaScript `parseInt` of the entry (leading-integer parse, with
whitespace, sign and hex prefix) yields a value whose canonical rendering
equals the VLAN's id key. -/
theorem filterConfig_semantics (cfg : VlanConfig) (sf vf : List String) :
    (filterConfig cfg sf vf).templates = cfg.templates ∧
    (vf = [] → (filterConfig cfg sf vf).vlans = cfg.vlans) ∧
    (sf = [] → (filterConfig cfg sf vf).switches = cfg.switches) ∧
    (vf ≠ [] → ∀ v : Nat × String,
      (v ∈ (filterConfig cfg sf vf).vlans ↔
        v ∈ cfg.vlans ∧ ∃ f ∈ vf,
          (jsToLower v.2 = jsToLower f ∨
            (jsParseInt f).map intToStr = some (natToStr v.1)))) ∧
    (sf ≠ [] → ∀ e : String × SwitchData,
      (e ∈ (filterConfig cfg sf vf).switches ↔ e ∈ cfg.switches ∧ e.1 ∈ sf)) := by
  refine ⟨rfl, ?_, ?_, ?_, ?_⟩
  · intro h
    subst h
    rfl
  · intro h
    subst h
    rfl
  · intro hne v
    have hv : (filterConfig cfg sf vf).vlans
        = (jsEntriesNat cfg.vlans).filter
            (fun v => vf.any (fun f => vlanFilterMatch (natToStr v.1) v.2 f)) := by
      have h0 : (filterConfig cfg sf vf).vlans
          = (if vf.isEmpty then cfg.vlans
             else (jsEntriesNat cfg.vlans).filter
               (fun v => vf.any (fun f => vlanFilterMatch (natToStr v.1) v.2 f))) := rfl
      rw [h0, if_neg (by simpa using hne)]
    rw [hv, List.mem_filter]
    constructor
    · rintro ⟨hm, hp⟩
      obtain ⟨f, hf, hmatch⟩ := List.any_eq_true.mp hp
      exact ⟨mem_jsEntriesNat.mp hm, f, hf, (vlanFilterMatch_iff _ _ _).mp hmatch⟩
    · rintro ⟨hm, f, hf, hmatch⟩
      exact ⟨mem_jsEntriesNat.mpr hm,
        List.any_eq_true.mpr ⟨f, hf, (vlanFilterMatch_iff _ _ _).mpr hmatch⟩⟩
  · intro hne e
    have hs : (filterConfig cfg sf vf).switches
        = (jsEntriesStr cfg.switches).filter (fun e => sf.contains e.1) := by
      have h0 : (filterConfig cfg sf vf).switches
          = (if sf.isEmpty then cfg.switches
             else (jsEntriesStr cfg.switches).filter (fun e => sf.contains e.1)) := rfl
      rw [h0, if_neg (by simpa using hne)]
    rw [hs, List.mem_filter]
    constructor
    · rintro ⟨hm, hc⟩
      exact ⟨mem_jsEntriesStr.mp hm, by simpa using hc⟩
    · rintro ⟨hm, hin⟩
      exact ⟨mem_jsEntriesStr.mpr hm, by simpa using hin⟩

/-- Witness for C6 (amended): the numeric filter `10` and the exact switch
key `sw1` retain VLAN 10 `data`. -/
theorem filterConfig_semantics_witness :
    (10, "data") ∈ (filterConfig cfgEx ["sw1"] ["10"]).vlans := by
  have h := filterConfig_semantics cfgEx ["sw1"] ["10"]
  exact (h.2.2.2.1 (by decide) (10, "data")).mpr
    ⟨by decide, "10", by decide, Or.inr (by decide)⟩

theorem findSub_some_first {pat l : List Char} (hp : pat.isEmpty = false) :
    ∀ {i : Nat}, findSub pat l = some i →
      startsWithChars pat (l.drop i) = true ∧
      ∀ j, j < i → startsWithChars pat (l.drop j) = false := by
  induction l with
  | nil =>
    intro i h
    unfold findSub at h
    rw [hp] at h
    exact absurd h (by simp)
  | cons c cs ih =>
    intro i h
    unfold findSub at h
    cases hs : startsWithChars pat (c :: cs) with
    | true =>
      rw [hs, if_pos rfl] at h
      cases h
      exact ⟨hs, fun j hj => absurd hj (Nat.not_lt_zero j)⟩
    | false =>
      rw [hs] at h
      simp only [Bool.false_eq_true, if_false, Option.map_eq_some'] at h
      obtain ⟨i', hi', rfl⟩ := h
      obtain ⟨h1, h2⟩ := ih hi'
      refine ⟨h1, ?_⟩
      intro j hj
      cases j with
      | zero => exact hs
      | succ j' => exact h2 j' (Nat.lt_of_succ_lt_succ hj)

theorem findSub_none {pat l : List Char} (hp : pat.isEmpty = false)
    (h : findSub pat l = none) :
    ∀ j, startsWithChars pat (l.drop j) = false := by
  induction l with
  | nil =>
    intro j
    rw [List.drop_nil]
    cases pat with
    | nil => simp at hp
    | cons p ps => rfl
  | cons c cs ih =>
    intro j
    unfold findSub at h
    cases hs : startsWithChars pat (c :: cs) with
    | true =>
      rw [hs, if_pos rfl] at h
      exact absurd h (by simp)
    | false =>
      rw [hs] at h
      simp only [Bool.false_eq_true, if_false, Option.map_eq_none'] at h
      cases j with
      | zero => exact hs
      | succ j' => exact ih h j'

/-- C8 counterexample: a buffered response with a valid status line but no
blank line before stream end does not fail — `customFetch` returns a
successful result whose body is the empty string (line 359's `-1` branch),
instead of a `ProtocolError`. -/
theorem response_without_blank_line_returns_ok :
    parseHttpResponse "HTTP/1.1 200 OK\r\nFoo: bar" =
      Except.ok { ok := true, status := 200, statusText := "OK",
                  headers := [("foo", "bar")], body := "" } ∧
    findSub crlf2 ("HTTP/1.1 200 OK\r\nFoo: bar").data = none := by
  exact ⟨by decide, by decide⟩

/-- C8 (amended): every successfully parsed buffered response is split at
the first `\r\n\r\n`: the body is exactly the text after the first
occurrence of the blank line; when no blank line occurs before stream end
the call still returns a result, whose body is the empty string, rather
than failing. -/
theorem parseHttpResponse_body_split (text : String) (r : FetchResponse)
    (h : parseHttpResponse text = Except.ok r) :
    (∀ i, findSub crlf2 text.data = some i →
      startsWithChars crlf2 (text.data.drop i) = true ∧
      (∀ j, j < i → startsWithChars crlf2 (text.data.drop j) = false) ∧
      r.body = String.mk (text.data.drop (i + 4))) ∧
    (findSub crlf2 text.data = none →
      (∀ j, startsWithChars crlf2 (text.data.drop j) = false) ∧ r.body = "") := by
  unfold parseHttpResponse at h
  cases hs : statusSearch (((jsSplitOn text "\r\n").headD "").data) with
  | none =>
    rw [hs] at h
    exact absurd h (by simp)
  | some st =>
    rw [hs] at h
    have hr := Except.ok.inj h
    subst hr
    constructor
    · intro i hi
      obtain ⟨h1, h2⟩ := findSub_some_first (by decide) hi
      refine ⟨h1, h2, ?_⟩
      show (match findSub crlf2 text.data with
        | some i => String.mk (text.data.drop (i + 4))
        | none => "") = _
      rw [hi]
    · intro hn
      refine ⟨findSub_none (by decide) hn, ?_⟩
      show (match findSub crlf2 text.data with
        | some i => String.mk (text.data.drop (i + 4))
        | none => "") = _
      rw [hn]

/-- The buffered response used by the C8 witness. -/
def textW : String := "HTTP/1.1 200 OK\r\nFoo: bar\r\n\r\nhello"

/-- The parsed response of the C8 witness. -/
def respW : FetchResponse :=
  { ok := true, status := 200, statusText := "OK",
    headers := [("foo", "bar")], body := "hello" }

/-- Witness for C8 (amended): the blank line of `textW` is at position 25
and the body is everything after it. -/
theorem parseHttpResponse_body_split_witness :
    parseHttpResponse textW = Except.ok respW ∧ respW.body = "hello" := by
  have h := parseHttpResponse_body_split textW respW (by decide)
  exact ⟨by decide, ((h.1 25 (by decide)).2.2).trans (by decide)⟩

/-- C9: every compiled command (membership and PVID) carries exactly the
six headers Host, User-Agent, Accept, Cookie (the switch's derived
`user=resp` credential), Content-Length and Content-Type
`application/x-www-form-urlencoded`, and the Content-Length value — the
JavaScript string length of the body — equals the exact byte length of
the body (every compiled body is ASCII). -/
theorem command_headers_exact (cfg : VlanConfig) (ck : List (String × String))
    (swr : SwitchHttpRequests) (hsw : swr ∈ generateHttpRequests cfg ck)
    (r : HttpRequest) (hr : r ∈ swr.requests) :
    ∃ sd, (swr.switch, sd) ∈ cfg.switches ∧
      jsLength r.body = byteLength r.body ∧
      r.headers =
        [("Host", sd.address),
         ("User-Agent", "curl/8.7.1"),
         ("Accept", "*/*"),
         ("Cookie", sd.auth.user ++ "=" ++ sd.auth.resp),
         ("Content-Length", natToStr (byteLength r.body)),
         ("Content-Type", "application/x-www-form-urlencoded")] := by
  obtain ⟨e, he, rfl⟩ := List.mem_map.mp hsw
  have hr' : r ∈ (jsEntriesNat cfg.vlans).map (membershipRequest cfg.templates e.2)
      ++ e.2.ports.enum.filterMap (portPvidCmd cfg e.2) := hr
  have hkey : AsciiStr r.body ∧ r.headers = mkHeaders e.2 r.body := by
    rcases List.mem_append.mp hr' with hm | hp
    · obtain ⟨v, _, rfl⟩ := List.mem_map.mp hm
      exact ⟨membershipBody_ascii _ _ _, rfl⟩
    · obtain ⟨ip, _, hcmd⟩ := List.mem_filterMap.mp hp
      unfold portPvidCmd at hcmd
      split at hcmd
      · exact absurd hcmd (by simp)
      · rw [Option.map_eq_some'] at hcmd
        obtain ⟨vid, -, hv⟩ := hcmd
        subst hv
        exact ⟨pvidBody_ascii _ _, rfl⟩
  have hlen := jsLength_eq_byteLength hkey.1
  refine ⟨e.2, mem_jsEntriesStr.mp he, hlen, ?_⟩
  rw [hkey.2]
  unfold mkHeaders
  rw [hlen]

/-- Witness for C9 at the worked example: the first compiled command of
`cfgEx` carries exactly the six headers, with Content-Length 42 — the
byte length of its 42-byte ASCII body. -/
theorem command_headers_exact_witness :
    (((generateHttpRequests cfgEx []).headD dummySwr).requests.headD dummyReq).headers =
      [("Host", "10.0.0.2"), ("User-Agent", "curl/8.7.1"), ("Accept", "*/*"),
       ("Cookie", "admin=r"), ("Content-Length", "42"),
       ("Content-Type", "application/x-www-form-urlencoded")] := by
  obtain ⟨sd, hmem, hlen, hh⟩ := command_headers_exact cfgEx []
    ((generateHttpRequests cfgEx []).headD dummySwr) (by decide)
    (((generateHttpRequests cfgEx []).headD dummySwr).requests.headD dummyReq) (by decide)
  have hsd : sd = sdEx := congrArg Prod.snd (List.mem_singleton.mp hmem)
  subst hsd
  rw [hh]
  decide
